import Mathlib

set_option autoImplicit false

/-!
# Verification of the Marinetraffic AIS monitoring core

Shallow embedding of the repository's core modules:

* `data_providers/base.py` — raw-record normalization (`normalize_ais_record`,
  `_normalize_eta`, `_parse_float`, `_parse_int`) and the sample provider;
* `data_providers/utils.py` — the on-disk cache reader (`load_cached_payload`);
* `arrival_predictor.py` — `predict_arrival_time`, `generate_time_series_projection`;
* `vessel_clustering.py` — `cluster_by_size`, `cluster_by_arrival_time`,
  `analyze_port_capacity`;
* the provider fallback chain of `MarineTrafficClient.get_vessels_in_port_area`
  (modelled from the specification, see below).

Modelling conventions: Python floats are embedded as exact rationals `ℚ`;
wall-clock instants (`datetime`) as rational seconds elapsed since an epoch
that falls on a local midnight, so `hour(t) = ⌊t/3600⌋ % 24`; Python `None`
and the loosely typed values found in raw AIS dictionaries as the inductive
`RawValue`; dictionaries as association lists looked up by first key;
fallible code as `Option`/`Except`.
-/

namespace MarineTraffic

/-- A Python value as it may occur in a raw AIS record or be fed to the
normalization helpers: `None`, a bool, an int, a float (embedded as `ℚ`),
a string, or a `datetime` instance (embedded as rational seconds). -/
inductive RawValue where
  | vNone
  | vBool (b : Bool)
  | vInt (n : ℤ)
  | vFloat (q : ℚ)
  | vStr (s : String)
  | vTime (t : ℚ)
  deriving DecidableEq

/-- Python truthiness of a `RawValue` (`bool(value)`): `None`, `False`,
numeric zero and the empty string are falsy, everything else truthy. -/
def RawValue.truthy : RawValue → Bool
  | .vNone => false
  | .vBool b => b
  | .vInt n => n != 0
  | .vFloat q => q != 0
  | .vStr s => !s.isEmpty
  | .vTime _ => true

/-- A raw AIS record: a Python dict embedded as an association list. -/
abbrev RawRecord := List (String × RawValue)

/-- `raw.get(key)`: the first binding of `key`, or `none` (Python `None`)
when the key is absent. -/
def getKey : RawRecord → String → Option RawValue
  | [], _ => none
  | (k, v) :: rest, key => if k = key then some v else getKey rest key

/-- Remove every binding of `key` from a record (used to state that a falsy
binding is indistinguishable from an absent one). -/
def eraseKey (key : String) : RawRecord → RawRecord
  | [] => []
  | (k, v) :: rest => if k = key then eraseKey key rest else (k, v) :: eraseKey key rest

/-- Python `a or b` on optional record values: `a` when `a` is present and
truthy, otherwise `b`. -/
def pyOr (a b : Option RawValue) : Option RawValue :=
  match a with
  | some v => if v.truthy then some v else b
  | none => b

/-- Collapse the `Option` produced by a `get`/`or` chain back into the plain
Python value it denotes (`none` is Python `None`). -/
def fromOpt (o : Option RawValue) : RawValue :=
  o.getD .vNone

/-- Numeric value of a list of decimal digit characters. -/
def digitsVal (l : List Char) : ℕ :=
  l.foldl (fun a c => 10 * a + (c.toNat - 48)) 0

/-- Python `str.strip()`: drop whitespace from both ends. -/
def pyStrip (cs : List Char) : List Char :=
  ((cs.dropWhile Char.isWhitespace).reverse.dropWhile Char.isWhitespace).reverse

/-- Model of Python `float(s)` on strings: optional surrounding whitespace,
optional sign, then a plain decimal literal (integer part and/or fractional
part). Exotic spellings (exponents, `inf`, `nan`, underscores) are not
modelled; no claim depends on them. -/
def parseDecimal (s : String) : Option ℚ :=
  let cs := pyStrip s.data
  let sgn : ℚ := match cs with
    | '-' :: _ => -1
    | _ => 1
  let cs := match cs with
    | '-' :: rest => rest
    | '+' :: rest => rest
    | _ => cs
  let intPart := cs.takeWhile Char.isDigit
  let rest := cs.dropWhile Char.isDigit
  match rest with
  | [] =>
      if intPart.isEmpty then none
      else some (sgn * (digitsVal intPart : ℚ))
  | '.' :: frac =>
      if frac.all Char.isDigit && !(intPart.isEmpty && frac.isEmpty) then
        some (sgn * ((digitsVal intPart : ℚ) + (digitsVal frac : ℚ) / (10 ^ frac.length)))
      else none
  | _ => none

/-- Model of Python `float(value)`: succeeds on bools, ints, floats and
numeric strings; raises (`none`) on `None`, non-numeric strings and
`datetime` instances. -/
def pyFloat : RawValue → Option ℚ
  | .vBool b => some (if b then 1 else 0)
  | .vInt n => some (n : ℚ)
  | .vFloat q => some q
  | .vStr s => parseDecimal s
  | .vNone => none
  | .vTime _ => none

/-- `_parse_float(value, default)` from `data_providers/base.py`: safely
parse as a float, returning `default` on `TypeError`/`ValueError`. -/
def _parse_float (v : RawValue) (default : ℚ := 0) : ℚ :=
  (pyFloat v).getD default

/-- Truncation toward zero, the behaviour of Python `int(float)`. -/
def truncQ (q : ℚ) : ℤ :=
  q.num.tdiv (q.den : ℤ)

/-- `_parse_int(value, default)` from `data_providers/base.py`:
`int(float(value))`, returning `default` on failure. -/
def _parse_int (v : RawValue) (default : ℤ := 0) : ℤ :=
  match pyFloat v with
  | some q => truncQ q
  | none => default

/-- Python `round(q)` (banker's rounding, ties to even). -/
def roundHalfEven (q : ℚ) : ℤ :=
  let n := ⌊q⌋
  let r := q - (n : ℚ)
  if r < 1 / 2 then n
  else if 1 / 2 < r then n + 1
  else if n % 2 = 0 then n else n + 1

/-- Python `round(q, 1)` modelled on exact rationals. -/
def pyRound1 (q : ℚ) : ℚ :=
  (roundHalfEven (10 * q) : ℚ) / 10

/-- Days elapsed since 1970-01-01 for a civil date (Hinnant's algorithm,
the arithmetic behind Python's `datetime` date handling). -/
def daysFromCivil (y : ℤ) (m d : ℕ) : ℤ :=
  let y := if m ≤ 2 then y - 1 else y
  let era := y.fdiv 400
  let yoe := y - era * 400
  let mp : ℤ := if 2 < m then (m : ℤ) - 3 else (m : ℤ) + 9
  let doy := (153 * mp + 2).fdiv 5 + (d : ℤ) - 1
  let doe := yoe * 365 + yoe.fdiv 4 - yoe.fdiv 100 + doy
  era * 146097 + doe - 719468

/-- Civil date of a day count since 1970-01-01 (inverse of `daysFromCivil`). -/
def civilFromDays (z : ℤ) : ℤ × ℕ × ℕ :=
  let z := z + 719468
  let era := z.fdiv 146097
  let doe := z - era * 146097
  let yoe := (doe - doe.fdiv 1460 + doe.fdiv 36524 - doe.fdiv 146096).fdiv 365
  let y := yoe + era * 400
  let doy := doe - (365 * yoe + yoe.fdiv 4 - yoe.fdiv 100)
  let mp := (5 * doy + 2).fdiv 153
  let d := doy - (153 * mp + 2).fdiv 5 + 1
  let m := if mp < 10 then mp + 3 else mp - 9
  (if m ≤ 2 then y + 1 else y, m.toNat, d.toNat)

/-- A `datetime` value in civil-calendar form, as produced by
`datetime.strptime`. -/
structure CivilDT where
  year : ℤ
  month : ℕ
  day : ℕ
  hour : ℕ
  minute : ℕ
  second : ℕ
  deriving DecidableEq

/-- The instant (seconds since the epoch) a civil datetime denotes. -/
def CivilDT.toSecs (dt : CivilDT) : ℚ :=
  ((daysFromCivil dt.year dt.month dt.day) * 86400
    + (dt.hour : ℤ) * 3600 + (dt.minute : ℤ) * 60 + (dt.second : ℤ) : ℤ)

/-- `datetime.now().year` for an instant. -/
def yearOf (t : ℚ) : ℤ :=
  (civilFromDays ⌊t / 86400⌋).1

/-- `.hour` of an instant: hour of the day it falls in. -/
def hourOfDay (t : ℚ) : ℤ :=
  ⌊t / 3600⌋ % 24

def isLeapYear (y : ℤ) : Bool :=
  (y % 4 == 0 && y % 100 != 0) || y % 400 == 0

def daysInMonth (y : ℤ) (m : ℕ) : ℕ :=
  if m = 2 then (if isLeapYear y then 29 else 28)
  else if m = 4 ∨ m = 6 ∨ m = 9 ∨ m = 11 then 30
  else 31

/-- Read exactly `n` decimal digits from the front of a character list. -/
def parseNatLen (cs : List Char) (n : ℕ) : Option (ℕ × List Char) :=
  let ds := cs.take n
  if ds.length = n && ds.all Char.isDigit then some (digitsVal ds, cs.drop n)
  else none

/-- Consume one expected character. -/
def expectChar (cs : List Char) (c : Char) : Option (List Char) :=
  match cs with
  | x :: xs => if x = c then some xs else none
  | [] => none

/-- Model of `datetime.fromisoformat` for the shapes this system produces:
`YYYY-MM-DD`, optionally followed by `T` or a space and `HH:MM[:SS[.ffffff]]`.
Returns the denoted instant; `none` models the `ValueError` raised on any
other input. -/
def fromIso (s : String) : Option ℚ := do
  let cs := s.data
  let (y, cs) ← parseNatLen cs 4
  let cs ← expectChar cs '-'
  let (mo, cs) ← parseNatLen cs 2
  let cs ← expectChar cs '-'
  let (d, cs) ← parseNatLen cs 2
  let core (hh mi ss : ℕ) (frac : ℚ) : Option ℚ :=
    if 1 ≤ mo ∧ mo ≤ 12 ∧ 1 ≤ d ∧ d ≤ daysInMonth (y : ℤ) mo
        ∧ hh ≤ 23 ∧ mi ≤ 59 ∧ ss ≤ 59 then
      some (CivilDT.toSecs ⟨(y : ℤ), mo, d, hh, mi, ss⟩ + frac)
    else none
  match cs with
  | [] => core 0 0 0 0
  | sep :: cs =>
    if sep = 'T' ∨ sep = ' ' then do
      let (hh, cs) ← parseNatLen cs 2
      let cs ← expectChar cs ':'
      let (mi, cs) ← parseNatLen cs 2
      match cs with
      | [] => core hh mi 0 0
      | ':' :: cs => do
          let (ss, cs) ← parseNatLen cs 2
          match cs with
          | [] => core hh mi ss 0
          | '.' :: frac =>
              if !frac.isEmpty && frac.all Char.isDigit then
                core hh mi ss ((digitsVal frac : ℚ) / (10 ^ frac.length))
              else none
          | _ => none
      | _ => none
    else none

/-- One token of a `strptime` format string: a numeric field (identified by
0 = `%Y`, 1 = `%m`, 2 = `%d`, 3 = `%H`, 4 = `%M`, 5 = `%S`, read greedily up
to `width` digits) or a literal character. -/
inductive FmtTok where
  | fld (field : ℕ) (width : ℕ)
  | lit (c : Char)
  deriving DecidableEq

/-- Run a format against the input, accumulating `(field, value)` pairs;
the whole input must be consumed (as `strptime` requires). -/
def runFmt : List FmtTok → List Char → List (ℕ × ℕ) → Option (List (ℕ × ℕ))
  | [], [], acc => some acc
  | [], _ :: _, _ => none
  | .lit c :: ts, cs, acc =>
      match cs with
      | x :: xs => if x = c then runFmt ts xs acc else none
      | [] => none
  | .fld f w :: ts, cs, acc =>
      let ds := (cs.takeWhile Char.isDigit).take w
      if ds.isEmpty then none
      else runFmt ts (cs.drop ds.length) ((f, digitsVal ds) :: acc)

/-- The `known_formats` tuple of `_normalize_eta`, in order:
`%Y-%m-%dT%H:%M:%S`, `%Y-%m-%d %H:%M:%S`, `%Y-%m-%d %H:%M`,
`%d/%m/%Y %H:%M`, `%m-%d %H:%M`, `%d-%m %H:%M`. -/
def knownFormats : List (List FmtTok) :=
  [ [.fld 0 4, .lit '-', .fld 1 2, .lit '-', .fld 2 2, .lit 'T',
     .fld 3 2, .lit ':', .fld 4 2, .lit ':', .fld 5 2],
    [.fld 0 4, .lit '-', .fld 1 2, .lit '-', .fld 2 2, .lit ' ',
     .fld 3 2, .lit ':', .fld 4 2, .lit ':', .fld 5 2],
    [.fld 0 4, .lit '-', .fld 1 2, .lit '-', .fld 2 2, .lit ' ',
     .fld 3 2, .lit ':', .fld 4 2],
    [.fld 2 2, .lit '/', .fld 1 2, .lit '/', .fld 0 4, .lit ' ',
     .fld 3 2, .lit ':', .fld 4 2],
    [.fld 1 2, .lit '-', .fld 2 2, .lit ' ', .fld 3 2, .lit ':', .fld 4 2],
    [.fld 2 2, .lit '-', .fld 1 2, .lit ' ', .fld 3 2, .lit ':', .fld 4 2] ]

/-- Assemble the matched fields into a datetime, applying `strptime`'s
defaults (year 1900, January 1st, midnight) and validating ranges the way
the `datetime` constructor does. -/
def buildDT (acc : List (ℕ × ℕ)) : Option CivilDT :=
  let y := (acc.lookup 0).getD 1900
  let m := (acc.lookup 1).getD 1
  let d := (acc.lookup 2).getD 1
  let hh := (acc.lookup 3).getD 0
  let mi := (acc.lookup 4).getD 0
  let ss := (acc.lookup 5).getD 0
  if 1 ≤ m ∧ m ≤ 12 ∧ 1 ≤ d ∧ d ≤ daysInMonth (y : ℤ) m
      ∧ hh ≤ 23 ∧ mi ≤ 59 ∧ ss ≤ 59 then
    some ⟨(y : ℤ), m, d, hh, mi, ss⟩
  else none

/-- The `for fmt in known_formats` loop: first format that both matches and
yields a valid datetime (an invalid date raises `ValueError`, which the loop
catches and skips, like a failed match). -/
def tryFormats : List (List FmtTok) → List Char → Option CivilDT
  | [], _ => none
  | f :: fs, cs =>
      match runFmt f cs [] with
      | some acc =>
          match buildDT acc with
          | some dt => some dt
          | none => tryFormats fs cs
      | none => tryFormats fs cs

/-- `_normalize_eta` from `data_providers/base.py`. The Python function
returns an ISO string or `None`; here the denoted instant stands for the
string (ISO formatting and re-parsing round-trip). The `Except` layer records
the one uncaught exception in the function: for a bare 3/4-digit input whose
last two digits exceed 59, `datetime.now().replace(minute=minutes, ...)`
raises `ValueError` before any rolling arithmetic happens. -/
def _normalize_eta (now : ℚ) (raw_eta : RawValue) : Except String (Option ℚ) :=
  if raw_eta = .vNone ∨ raw_eta = .vStr "" ∨ raw_eta = .vStr "0000-00-00 00:00"
      ∨ raw_eta = .vStr "0000-00-00T00:00:00" then .ok none
  else
    match raw_eta with
    | .vBool b => .ok (some (now + 3600 * (if b then (1 : ℚ) else 0)))
    | .vInt n => .ok (some (now + 3600 * (n : ℚ)))
    | .vFloat q => .ok (some (now + 3600 * q))
    | .vTime t => .ok (some t)
    | .vNone => .ok none
    | .vStr s =>
        let cs := pyStrip s.data
        if cs.isEmpty then .ok none
        else
          match tryFormats knownFormats cs with
          | some dt =>
              let dt := if dt.year = 1900 then { dt with year := yearOf now } else dt
              .ok (some dt.toSecs)
          | none =>
              if cs.all Char.isDigit && (cs.length = 3 || cs.length = 4) then
                let hours := digitsVal (cs.take (cs.length - 2))
                let minutes := digitsVal (cs.drop (cs.length - 2))
                if 59 < minutes then .error "minute must be in 0..59"
                else
                  let eta_dt := 3600 * (⌊now / 3600⌋ : ℚ) + 60 * (minutes : ℚ)
                  .ok (some (eta_dt
                    + 3600 * ((max ((hours : ℤ) - hourOfDay eta_dt) 0 : ℤ) : ℚ)))
              else .ok none

/-- The unified vessel schema produced by `normalize_ais_record`. Fields
that Python leaves loosely typed (`ship_name`, `ship_type`, `destination`,
`status` take whatever truthy value the record supplies) stay `RawValue`;
`eta` holds the instant denoted by the ISO string, or `none`. -/
structure Vessel where
  mmsi : ℤ
  imo : ℤ
  ship_name : RawValue
  ship_type : RawValue
  destination : RawValue
  eta : Option ℚ
  speed : ℚ
  course : ℤ
  latitude : ℚ
  longitude : ℚ
  draught : ℚ
  length : ℤ
  width : ℤ
  status : RawValue
  deriving DecidableEq

/-- `normalize_ais_record` from `data_providers/base.py`. The `Except` layer
carries the two `ValueError`s the function can raise: the missing-MMSI
rejection, and the minute-range error `_normalize_eta` can raise while the
vessel dict is being built. -/
def normalize_ais_record (now : ℚ) (raw : RawRecord) (default_destination : String) :
    Except String Vessel :=
  let mmsi := _parse_int (fromOpt (pyOr (getKey raw "mmsi") (getKey raw "MMSI")))
  if mmsi = 0 then .error "Record AIS privo di MMSI"
  else
    let latitude := pyOr (pyOr (getKey raw "latitude") (getKey raw "LAT")) (getKey raw "lat")
    let longitude := pyOr (pyOr (getKey raw "longitude") (getKey raw "LON")) (getKey raw "lon")
    let dim_a := _parse_float (fromOpt (getKey raw "dim_a"))
    let dim_b := _parse_float (fromOpt (getKey raw "dim_b"))
    let dim_c := _parse_float (fromOpt (getKey raw "dim_c"))
    let dim_d := _parse_float (fromOpt (getKey raw "dim_d"))
    match _normalize_eta now (fromOpt (pyOr (getKey raw "eta") (getKey raw "ETA"))) with
    | .error e => .error e
    | .ok eta =>
        .ok
          { mmsi := mmsi
            imo := _parse_int (fromOpt (pyOr (getKey raw "imo") (getKey raw "IMO")))
            ship_name := fromOpt (pyOr (pyOr (pyOr (getKey raw "ship_name")
              (getKey raw "SHIPNAME")) (getKey raw "name")) (some (.vStr "Unknown")))
            ship_type := fromOpt (pyOr (pyOr (pyOr (getKey raw "ship_type")
              (getKey raw "SHIPTYPE")) (getKey raw "type")) (some (.vStr "Unknown")))
            destination := fromOpt (pyOr (pyOr (getKey raw "destination")
              (getKey raw "DESTINATION")) (some (.vStr default_destination)))
            eta := eta
            speed := pyRound1 (_parse_float (fromOpt (pyOr (pyOr (getKey raw "speed")
              (getKey raw "SOG")) (getKey raw "sog"))) 0)
            course := roundHalfEven (_parse_float (fromOpt (pyOr (pyOr (getKey raw "course")
              (getKey raw "COG")) (getKey raw "cog"))) 0)
            latitude := _parse_float (fromOpt latitude) 0
            longitude := _parse_float (fromOpt longitude) 0
            draught := pyRound1 (_parse_float (fromOpt (pyOr (pyOr (getKey raw "draught")
              (getKey raw "DRAUGHT")) (getKey raw "draught_m"))) 0)
            length := roundHalfEven (_parse_float (fromOpt (pyOr (pyOr (getKey raw "length")
              (getKey raw "LENGTH")) (getKey raw "length_m"))) (dim_a + dim_b))
            width := roundHalfEven (_parse_float (fromOpt (pyOr (pyOr (getKey raw "width")
              (getKey raw "WIDTH")) (getKey raw "width_m"))) (dim_c + dim_d))
            status := fromOpt (pyOr (pyOr (pyOr (getKey raw "status")
              (getKey raw "STATUS")) (getKey raw "nav_status")) (some (.vStr "Unknown"))) }

/-- The normalization loop shared by every provider's `fetch_vessels`
(`open_file.py`, `open_http.py`, `aishub.py`, `marine_traffic_api.py`):
`try: vessels.append(normalize_ais_record(record, port_name))
except ValueError: continue`. -/
def fetch_normalize (now : ℚ) (records : List RawRecord) (port_name : String) :
    List Vessel :=
  match records with
  | [] => []
  | r :: rest =>
      match normalize_ais_record now r port_name with
      | .ok v => v :: fetch_normalize now rest port_name
      | .error _ => fetch_normalize now rest port_name

/-- The fields `generate_time_series_projection` reads from a prediction
dict through `.get`. -/
structure PredictionRec where
  predicted_eta : Option String
  declared_eta : Option String
  deriving DecidableEq

structure ProjBucket where
  window_start : ℚ
  window_end : ℚ
  expected_arrivals : ℕ
  cumulative_expected : ℕ
  trend_estimate : Option ℚ
  deriving DecidableEq

structure Trendline where
  slope : ℚ
  intercept : ℚ
  description : String
  deriving DecidableEq

/-- The projection produced by `generate_time_series_projection`
(`generated_at`, a formatted timestamp echo of `now`, is not carried). -/
structure Projection where
  horizon_hours : ℤ
  interval_hours : ℤ
  buckets : List ProjBucket
  trendline : Option Trendline
  deriving DecidableEq

/-- Insertion sort on rationals, modelling `list.sort()`. -/
def insertSortedQ (x : ℚ) : List ℚ → List ℚ
  | [] => [x]
  | y :: ys => if x ≤ y then x :: y :: ys else y :: insertSortedQ x ys

def sortQ : List ℚ → List ℚ
  | [] => []
  | x :: xs => insertSortedQ x (sortQ xs)

/-- The bucket-construction loop of `generate_time_series_projection`:
one bucket per index, counting arrivals inside `[start, end)` and keeping a
running cumulative total. -/
def buildBuckets (arrivals : List ℚ) (now : ℚ) (interval_hours : ℤ) :
    ℕ → ℕ → ℕ → List ProjBucket
  | 0, _, _ => []
  | n + 1, index, cumulative =>
      let window_start := now + 3600 * ((index : ℚ) * (interval_hours : ℚ))
      let window_end := window_start + 3600 * (interval_hours : ℚ)
      let count := (arrivals.filter
        (fun eta => decide (window_start ≤ eta) && decide (eta < window_end))).length
      let cumulative := cumulative + count
      { window_start := window_start
        window_end := window_end
        expected_arrivals := count
        cumulative_expected := cumulative
        trend_estimate := none } :: buildBuckets arrivals now interval_hours n (index + 1) cumulative

/-- Degree-1 least-squares fit (`np.polyfit(x, counts, 1)` with
`x = 0, …, n−1`): `(slope, intercept)` in exact rational arithmetic. -/
def polyfit1 (counts : List ℚ) : ℚ × ℚ :=
  let n : ℚ := counts.length
  let xs := (List.range counts.length).map (fun i => (i : ℚ))
  let sx := xs.sum
  let sy := counts.sum
  let sxx := (xs.map (fun x => x * x)).sum
  let sxy := ((xs.zip counts).map (fun p => p.1 * p.2)).sum
  let slope := (n * sxy - sx * sy) / (n * sxx - sx * sx)
  let intercept := (sy - slope * sx) / n
  (slope, intercept)

/-- `ArrivalPredictor.generate_time_series_projection` from
`arrival_predictor.py`. The `Except` layer carries the `ValueError` raised
for non-positive parameters. -/
def generate_time_series_projection (predictions : List PredictionRec) (now : ℚ)
    (horizon_hours : ℤ := 48) (interval_hours : ℤ := 6) : Except String Projection :=
  if horizon_hours ≤ 0 ∨ interval_hours ≤ 0 then
    .error "I parametri horizon_hours e interval_hours devono essere positivi"
  else
    let bucket_count := (max 1 ⌈(horizon_hours : ℚ) / (interval_hours : ℚ)⌉).toNat
    let arrivals := predictions.filterMap (fun pred =>
      let eta_value :=
        match pred.predicted_eta with
        | some s => if s.isEmpty then pred.declared_eta else some s
        | none => pred.declared_eta
      match eta_value with
      | none => none
      | some s =>
          if s.isEmpty then none
          else
            match fromIso s with
            | none => none
            | some eta_dt => if eta_dt < now then none else some eta_dt)
    let arrivals := sortQ arrivals
    let buckets := buildBuckets arrivals now interval_hours bucket_count 0 0
    let counts := buckets.map (fun b => (b.expected_arrivals : ℚ))
    if 2 ≤ counts.length ∧ counts.any (fun c => c != 0) then
      let (slope, intercept) := polyfit1 counts
      let buckets := buckets.enum.map (fun p =>
        { p.2 with trend_estimate := some (max (intercept + slope * (p.1 : ℚ)) 0) })
      let description :=
        if 0 < slope then "Trend crescente"
        else if slope < 0 then "Trend decrescente"
        else "Trend stabile"
      .ok
        { horizon_hours := horizon_hours
          interval_hours := interval_hours
          buckets := buckets
          trendline := some { slope := slope, intercept := intercept, description := description } }
    else
      .ok
        { horizon_hours := horizon_hours
          interval_hours := interval_hours
          buckets := buckets
          trendline := none }

/-- The fields `VesselClusterer` reads from a vessel dict through `.get`. -/
structure CVessel where
  eta : Option String
  ship_type : Option String
  length : Option ℚ
  deriving DecidableEq

/-- `VesselClusterer.cluster_by_size` from `vessel_clustering.py`: the
`(small, medium, large)` clusters, in input order. The source branches on
`length < 150` / `elif length < 250` / `else`, with `length` defaulting
to 0. -/
def cluster_by_size : List CVessel → List CVessel × List CVessel × List CVessel
  | [] => ([], [], [])
  | v :: rest =>
      let (s, m, l) := cluster_by_size rest
      let len := v.length.getD 0
      if len < 150 then (v :: s, m, l)
      else if len < 250 then (s, v :: m, l)
      else (s, m, v :: l)

/-- Append a vessel to the cluster of window `k`, keeping first-insertion
order of keys (Python dict iteration order). -/
def upsertWindow (k : ℕ) (v : CVessel) : List (ℕ × List CVessel) → List (ℕ × List CVessel)
  | [] => [(k, [v])]
  | (k₀, vs) :: rest =>
      if k₀ = k then (k₀, vs ++ [v]) :: rest else (k₀, vs) :: upsertWindow k v rest

/-- `VesselClusterer.cluster_by_arrival_time` from `vessel_clustering.py`:
clusters keyed by the arrival-window index (the source keys by the label
`f"{index*w}-{(index+1)*w}h"`, in bijection with the index). Vessels with a
falsy, unparseable or past ETA are skipped. -/
def cluster_by_arrival_time (now : ℚ) (vessels : List CVessel)
    (time_window_hours : ℕ := 6) : List (ℕ × List CVessel) :=
  vessels.foldl (fun clusters vessel =>
    match vessel.eta with
    | none => clusters
    | some eta_str =>
        if eta_str.isEmpty then clusters
        else
          match fromIso eta_str with
          | none => clusters
          | some eta =>
              let hours_to_arrival := (eta - now) / 3600
              if hours_to_arrival < 0 then clusters
              else
                let window_index := (⌊hours_to_arrival / (time_window_hours : ℚ)⌋).toNat
                upsertWindow window_index vessel clusters) []

/-- `VesselClusterer._count_types`: ship-type counts in first-seen order. -/
def upsertCount (k : String) : List (String × ℕ) → List (String × ℕ)
  | [] => [(k, 1)]
  | (k₀, n) :: rest => if k₀ = k then (k₀, n + 1) :: rest else (k₀, n) :: upsertCount k rest

def _count_types (vessels : List CVessel) : List (String × ℕ) :=
  vessels.foldl (fun acc v => upsertCount (v.ship_type.getD "Unknown") acc) []

/-- Sort the window clusters by ascending numeric window start (the
source's `sorted(keys, key=sort_key)`; keys are distinct). -/
def insertByKey (p : ℕ × List CVessel) :
    List (ℕ × List CVessel) → List (ℕ × List CVessel)
  | [] => [p]
  | q :: rest => if p.1 ≤ q.1 then p :: q :: rest else q :: insertByKey p rest

def sortByKey : List (ℕ × List CVessel) → List (ℕ × List CVessel)
  | [] => []
  | p :: rest => insertByKey p (sortByKey rest)

/-- One per-window entry of the capacity analysis (the label
`f"{start}-{end}h"` is carried as its two numbers). -/
structure TimeWindow where
  window_start : ℕ
  window_end : ℕ
  arriving_vessels : ℕ
  utilization_percent : ℚ
  is_congested : Bool
  vessel_types : List (String × ℕ)
  deriving DecidableEq

/-- Result of `analyze_port_capacity`. `utilization_std_dev`
(`np.std`, a square root, the one irrational-valued field) is the only
field not carried; no claim concerns it. -/
structure CapacityAnalysis where
  max_berths : ℤ
  time_windows : List TimeWindow
  overall_utilization : ℚ
  potential_congestion : Bool
  peak_utilization : ℚ
  deriving DecidableEq

def listMaxQ : List ℚ → ℚ
  | [] => 0
  | x :: xs => xs.foldl max x

/-- `VesselClusterer.analyze_port_capacity` from `vessel_clustering.py`:
12-hour arrival windows, each flagged congested when its vessel count
strictly exceeds `max_berths`; the aggregates are only filled in when at
least one window exists. -/
def analyze_port_capacity (now : ℚ) (vessels : List CVessel)
    (max_berths : ℤ := 10) : CapacityAnalysis :=
  let time_clusters := sortByKey (cluster_by_arrival_time now vessels 12)
  let time_windows := time_clusters.map (fun p =>
    let vessels_count : ℕ := p.2.length
    let utilization := ((vessels_count : ℚ) / (max_berths : ℚ)) * 100
    { window_start := p.1 * 12
      window_end := (p.1 + 1) * 12
      arriving_vessels := vessels_count
      utilization_percent := pyRound1 utilization
      is_congested := decide (max_berths < (vessels_count : ℤ))
      vessel_types := _count_types p.2 : TimeWindow })
  let window_utilizations := time_clusters.map (fun p =>
    ((p.2.length : ℚ) / (max_berths : ℚ)) * 100)
  if window_utilizations.isEmpty then
    { max_berths := max_berths
      time_windows := time_windows
      overall_utilization := 0
      potential_congestion := false
      peak_utilization := 0 }
  else
    { max_berths := max_berths
      time_windows := time_windows
      overall_utilization := pyRound1 (window_utilizations.sum / (window_utilizations.length : ℚ))
      potential_congestion := time_windows.any (fun w => w.is_congested)
      peak_utilization := pyRound1 (listMaxQ window_utilizations) }

/-- A deterministic stand-in for the `random` module: `draw k` is the `k`-th
raw draw. `randint a b` maps a draw into `[a, b]` by modulus, `choice` picks
an index, `uniform a b` scales a thousandth-granularity unit draw into
`[a, b]`. -/
structure Rng where
  draw : ℕ → ℕ

def randint (g : Rng) (k : ℕ) (a b : ℤ) : ℤ :=
  a + ((g.draw k : ℤ)) % (b - a + 1)

def choiceIdx (g : Rng) (k : ℕ) (n : ℕ) : ℕ :=
  g.draw k % n

def uniformDraw (g : Rng) (k : ℕ) (a b : ℚ) : ℚ :=
  a + (b - a) * (((g.draw k % 1000 : ℕ) : ℚ) / 1000)

def sample_vessel_types : List String :=
  ["Cargo", "Tanker", "Container Ship", "Bulk Carrier", "Passenger Ship"]

def sample_vessel_names : List String :=
  ["MEDITERRANEAN STAR", "OCEAN VOYAGER", "TYRRHENIAN EXPRESS",
   "ATLANTIC HORIZON", "NEPTUNE CARRIER", "POSEIDON TRADER",
   "ADRIATIC QUEEN", "ITALIA MARINE", "BLUE WAVE", "SEA SPIRIT"]

def sample_status_values : List String :=
  ["Under way using engine", "At anchor", "Moored"]

/-- `PORT_COORDINATES` from `data_providers/base.py`. -/
def port_coordinates : List (String × (ℚ × ℚ)) :=
  [("Naples", (40.8394, 14.2520)), ("Salerno", (40.6741, 14.7697)),
   ("Civitavecchia", (42.0942, 11.7961)), ("Gaeta", (41.2131, 13.5722))]

/-- `SampleDataProvider.fetch_vessels` from `data_providers/base.py`:
5–12 synthetic vessels around the requested port, destination the port
itself, ETA 1–48 h from `now`. Total by construction — the sample provider
can never fail. Draw indices advance left to right through the loop body
(13 draws per vessel after the initial count draw). -/
def sample_fetch_vessels (g : Rng) (now : ℚ) (port_name : String) : List Vessel :=
  let num_vessels := (randint g 0 5 12).toNat
  let coords := (port_coordinates.lookup port_name).getD (40.5, 14.0)
  (List.range num_vessels).map (fun i =>
    let k : ℕ := 1 + 13 * i
    let eta_hours := randint g k 1 48
    { mmsi := 200000000 + (randint g (k + 1) 1000 9999) * 100 + (i : ℤ)
      imo := 9000000 + randint g (k + 2) 100000 999999
      ship_name := .vStr ((sample_vessel_names.get?
        (choiceIdx g (k + 3) sample_vessel_names.length)).getD "")
      ship_type := .vStr ((sample_vessel_types.get?
        (choiceIdx g (k + 4) sample_vessel_types.length)).getD "")
      destination := .vStr port_name
      eta := some (now + 3600 * (eta_hours : ℚ))
      speed := pyRound1 (uniformDraw g (k + 5) 8 18)
      course := randint g (k + 6) 0 360
      latitude := coords.1 + uniformDraw g (k + 7) (-0.6) 0.6
      longitude := coords.2 + uniformDraw g (k + 8) (-0.6) 0.6
      draught := pyRound1 (uniformDraw g (k + 9) 6 14)
      length := randint g (k + 10) 120 350
      width := randint g (k + 11) 22 50
      status := .vStr ((sample_status_values.get?
        (choiceIdx g (k + 12) sample_status_values.length)).getD "") })

/-- Modelled from the spec: the resilience layer of
`MarineTrafficClient.get_vessels_in_port_area`. The copy of
`marine_traffic_client.py` in the sources predates this layer — only its
tests (`tests/test_client_fallback.py`) exercise the `data_provider`
constructor argument, the `_fallback_provider` attribute and the cache
hookup — so the client state and chain are modelled from §4.3 of the
specification: the configured providers in order, a fresh-cache read per
provider key, then the simulated sample provider. -/
structure ResilienceClient where
  providers : List (String × (String → ℤ → Except String (List Vessel)))
  cache_lookup : String → String → ℤ → Option (List Vessel)
  rng : Rng
  now : ℚ

/-- Modelled from the spec: try each configured provider in order; a raised
exception is caught (logged as a warning) and the chain advances, as does an
empty result; the first non-empty success is returned. -/
def try_providers (port_name : String) (radius : ℤ) :
    List (String × (String → ℤ → Except String (List Vessel))) → Option (List Vessel)
  | [] => none
  | (_, fetch) :: rest =>
      match fetch port_name radius with
      | .ok vs => if vs.isEmpty then try_providers port_name radius rest else some vs
      | .error _ => try_providers port_name radius rest

/-- Modelled from the spec: after all providers failed or returned empty,
read the cache entry (already TTL-filtered by `load_cached_payload`) for
each configured provider's `(provider, port, radius)` key. -/
def try_caches (c : ResilienceClient) (port_name : String) (radius : ℤ) :
    List (String × (String → ℤ → Except String (List Vessel))) → Option (List Vessel)
  | [] => none
  | (name, _) :: rest =>
      match c.cache_lookup name port_name radius with
      | some vs => some vs
      | none => try_caches c port_name radius rest

/-- Modelled from the spec: `get_vessels_in_port_area` of the resilience
layer — providers, then cache, then the simulated provider as last resort;
no provider exception escapes. -/
def get_vessels_in_port_area (c : ResilienceClient) (port_name : String)
    (radius : ℤ := 50) : Except String (List Vessel) :=
  match try_providers port_name radius c.providers with
  | some vs => .ok vs
  | none =>
      match try_caches c port_name radius c.providers with
      | some vs => .ok vs
      | none => .ok (sample_fetch_vessels c.rng c.now port_name)

/-- Midnight at the start of the day an instant falls in. -/
def midnightOf (t : ℚ) : ℚ :=
  86400 * (⌊t / 86400⌋ : ℚ)

/-- Whether a format contains a non-digit literal separator (every member
of `known_formats` does). -/
def hasNonDigitLit (ts : List FmtTok) : Bool :=
  ts.any fun tok =>
    match tok with
    | .lit c => !c.isDigit
    | .fld _ _ => false

theorem getKey_eraseKey_same (key : String) :
    ∀ r : RawRecord, getKey (eraseKey key r) key = none
  | [] => rfl
  | (k, v) :: rest => by
      by_cases h : k = key
      · simp [eraseKey, h, getKey_eraseKey_same key rest]
      · simp [eraseKey, getKey, h, getKey_eraseKey_same key rest]

theorem getKey_eraseKey_ne (key k : String) (h : k ≠ key) :
    ∀ r : RawRecord, getKey (eraseKey key r) k = getKey r k
  | [] => rfl
  | (k₀, v) :: rest => by
      by_cases hp : k₀ = key
      · subst hp
        simp [eraseKey, getKey, Ne.symm h, getKey_eraseKey_ne k₀ k h rest]
      · by_cases hk : k₀ = k
        · subst hk

          simp [eraseKey, hp, getKey]
        · simp [eraseKey, hp, getKey, hk, getKey_eraseKey_ne key k h rest]

/-- C6: at the boundary the code contradicts its own comments
(`'medium': # 150-250m`, `'large': # > 250m`): a vessel of length exactly
250 is not strictly longer than 250 m, yet `cluster_by_size` places it in
the `large` cluster (the source tests `elif length < 250`), not in
`medium`. -/
theorem cluster_by_size_boundary_250 :
    cluster_by_size [{ eta := none, ship_type := none, length := some 250 }] =
      ([], [], [{ eta := none, ship_type := none, length := some 250 }]) := by
  with_unfolding_all rfl

/-- C3: a record whose `mmsi`/`MMSI` chain parses to zero (absent key,
non-numeric value, or an explicit zero) makes `normalize_ais_record` fail
with the missing-identifier `ValueError`, producing no vessel; and the
providers' batch loop keeps exactly the records that normalize
successfully, in order. -/
theorem normalize_missing_mmsi (now : ℚ) :
    (∀ (raw : RawRecord) (d : String),
        _parse_int (fromOpt (pyOr (getKey raw "mmsi") (getKey raw "MMSI"))) = 0 →
        normalize_ais_record now raw d = .error "Record AIS privo di MMSI") ∧
    (∀ (records : List RawRecord) (port : String),
        fetch_normalize now records port
          = records.filterMap (fun r => (normalize_ais_record now r port).toOption)) := by
  constructor
  · intro raw d h
    unfold normalize_ais_record
    simp [h]
  · intro records port
    induction records with
    | nil => rfl
    | cons r rest ih =>
        unfold fetch_normalize
        cases hnorm : normalize_ais_record now r port <;>
          simp [hnorm, ih, Except.toOption]

theorem normalize_missing_mmsi_witness :
    (_parse_int (fromOpt (pyOr (getKey [(("ship_name" : String), RawValue.vStr "X"),
        (("mmsi" : String), RawValue.vStr "0.4")] "mmsi")
        (getKey [(("ship_name" : String), RawValue.vStr "X"),
        (("mmsi" : String), RawValue.vStr "0.4")] "MMSI"))) = 0) ∧
    normalize_ais_record 0 [(("ship_name" : String), RawValue.vStr "X"),
        (("mmsi" : String), RawValue.vStr "0.4")] "Naples"
      = .error "Record AIS privo di MMSI" :=
  ⟨by with_unfolding_all rfl, (normalize_missing_mmsi 0).1 _ _ (by with_unfolding_all rfl)⟩

/-- C9: `generate_time_series_projection` rejects a request with the
`InvalidParameters` error precisely when `horizon_hours ≤ 0` or
`interval_hours ≤ 0`; for positive parameters the validation does not fire
and the call returns a projection. -/
theorem generate_time_series_projection_validation (predictions : List PredictionRec)
    (now : ℚ) (horizon_hours interval_hours : ℤ) :
    (generate_time_series_projection predictions now horizon_hours interval_hours
        = .error "I parametri horizon_hours e interval_hours devono essere positivi")
      ↔ (horizon_hours ≤ 0 ∨ interval_hours ≤ 0) := by
  unfold generate_time_series_projection
  split
  · rename_i h
    simp only [iff_true, h]
  · rename_i h
    simp only [h, iff_false]
    split <;> simp

theorem generate_time_series_projection_validation_witness :
    generate_time_series_projection [] 0 (-1) 6
      = .error "I parametri horizon_hours e interval_hours devono essere positivi" :=
  (generate_time_series_projection_validation [] 0 (-1) 6).mpr (Or.inl (by norm_num))

theorem try_providers_none (port_name : String) (radius : ℤ) :
    ∀ ps : List (String × (String → ℤ → Except String (List Vessel))),
      (∀ p ∈ ps, ∃ e, p.2 port_name radius = .error e) →
      try_providers port_name radius ps = none
  | [], _ => rfl
  | (n, f) :: rest, h => by
      obtain ⟨e, he⟩ := h (n, f) (List.mem_cons_self _ _)
      have he2 : f port_name radius = .error e := he
      have ih := try_providers_none port_name radius rest
        (fun p hp => h p (List.mem_cons_of_mem _ hp))
      simp [try_providers, he2, ih]

theorem try_caches_none (c : ResilienceClient) (port_name : String) (radius : ℤ) :
    ∀ ps : List (String × (String → ℤ → Except String (List Vessel))),
      (∀ p ∈ ps, c.cache_lookup p.1 port_name radius = none) →
      try_caches c port_name radius ps = none
  | [], _ => rfl
  | (n, f) :: rest, h => by
      have hn : c.cache_lookup n port_name radius = none := h (n, f) (List.mem_cons_self _ _)
      have ih := try_caches_none c port_name radius rest
        (fun p hp => h p (List.mem_cons_of_mem _ hp))
      simp [try_caches, hn, ih]

/-- C1: when every configured provider raises on every call and the cache
holds no entry for any configured provider's `(provider, port, radius)` key,
`get_vessels_in_port_area` returns exactly the simulated sample provider's
vessel list, and — the result being an `Except.ok` — no provider exception
reaches the caller. -/
theorem get_vessels_falls_back_to_sample (c : ResilienceClient) (port_name : String)
    (radius : ℤ)
    (hfail : ∀ p ∈ c.providers, ∀ (pt : String) (r : ℤ), ∃ e, p.2 pt r = .error e)
    (hmiss : ∀ p ∈ c.providers, c.cache_lookup p.1 port_name radius = none) :
    get_vessels_in_port_area c port_name radius
      = .ok (sample_fetch_vessels c.rng c.now port_name) := by
  have h1 : try_providers port_name radius c.providers = none :=
    try_providers_none port_name radius c.providers
      (fun p hp => hfail p hp port_name radius)
  have h2 : try_caches c port_name radius c.providers = none :=
    try_caches_none c port_name radius c.providers hmiss
  unfold get_vessels_in_port_area
  rw [h1, h2]

theorem get_vessels_falls_back_to_sample_witness :
    get_vessels_in_port_area
        { providers := [("failing", fun _ _ => Except.error "boom")]
          cache_lookup := fun _ _ _ => none
          rng := { draw := fun k => k }
          now := 0 } "Naples" 50
      = .ok (sample_fetch_vessels { draw := fun k => k } 0 "Naples") :=
  get_vessels_falls_back_to_sample _ "Naples" 50
    (by
      intro p hp pt r
      simp only [List.mem_singleton] at hp
      subst hp
      exact ⟨"boom", rfl⟩)
    (fun p _ => rfl)

theorem getKey_eraseKey (key k : String) (r : RawRecord) :
    getKey (eraseKey key r) k = if k = key then none else getKey r k := by
  by_cases h : k = key
  · subst h
    simp [getKey_eraseKey_same]
  · simp [h, getKey_eraseKey_ne key k h r]

theorem pyOr_falsy {u : RawValue} (h : u.truthy = false) (b : Option RawValue) :
    pyOr (some u) b = b := by
  simp [pyOr, h]

theorem pyOr_none (b : Option RawValue) : pyOr none b = b := rfl

/-- C10: in `normalize_ais_record`, alias resolution through `or`-chains
treats present-but-falsy values as absent: for each of the twelve chained
fields, a primary key bound to `0`, `0.0`, `""`, `False` or `None` is
skipped in favour of the later aliases (or the default), so the normalized
vessel is identical to the one obtained after deleting that key — a caller
cannot distinguish an explicit falsy value from a missing key. -/
theorem normalize_falsy_alias_indistinguishable (now : ℚ) (raw : RawRecord) (d : String)
    (key : String)
    (hkey : key ∈ ["ship_name", "ship_type", "destination", "eta", "speed", "course",
      "latitude", "longitude", "draught", "length", "width", "status"])
    (u : RawValue) (hu : getKey raw key = some u) (hfalsy : u.truthy = false) :
    normalize_ais_record now raw d = normalize_ais_record now (eraseKey key raw) d := by
  fin_cases hkey <;>
    simp +decide [normalize_ais_record, getKey_eraseKey, hu, pyOr_falsy hfalsy, pyOr_none]

theorem normalize_falsy_alias_witness :
    normalize_ais_record 0 [(("mmsi" : String), RawValue.vInt 1),
        (("latitude" : String), RawValue.vFloat 0),
        (("LAT" : String), RawValue.vFloat 40)] "Naples"
      = normalize_ais_record 0 (eraseKey "latitude"
          [(("mmsi" : String), RawValue.vInt 1),
           (("latitude" : String), RawValue.vFloat 0),
           (("LAT" : String), RawValue.vFloat 40)]) "Naples" ∧
    (normalize_ais_record 0 [(("mmsi" : String), RawValue.vInt 1),
        (("latitude" : String), RawValue.vFloat 0),
        (("LAT" : String), RawValue.vFloat 40)] "Naples").map (fun v => v.latitude)
      = .ok 40 := by
  constructor
  · exact normalize_falsy_alias_indistinguishable 0 _ "Naples" "latitude"
      (by simp) (RawValue.vFloat 0) (by with_unfolding_all rfl) (by with_unfolding_all rfl)
  · with_unfolding_all rfl

/-- C7: in `analyze_port_capacity`, a time window is flagged congested
exactly when its arriving-vessel count strictly exceeds `max_berths`, and
the overall `potential_congestion` flag is true exactly when at least one
window is congested (in particular it stays false when there is no window
at all). -/
theorem analyze_port_capacity_congestion (now : ℚ) (vessels : List CVessel)
    (max_berths : ℤ) (_hpos : 0 < max_berths) :
    (∀ w ∈ (analyze_port_capacity now vessels max_berths).time_windows,
        w.is_congested = decide (max_berths < (w.arriving_vessels : ℤ))) ∧
    ((analyze_port_capacity now vessels max_berths).potential_congestion = true ↔
      ∃ w ∈ (analyze_port_capacity now vessels max_berths).time_windows,
        w.is_congested = true) := by
  have hw : (analyze_port_capacity now vessels max_berths).time_windows
      = (sortByKey (cluster_by_arrival_time now vessels 12)).map (fun p =>
        { window_start := p.1 * 12
          window_end := (p.1 + 1) * 12
          arriving_vessels := p.2.length
          utilization_percent := pyRound1 (((p.2.length : ℚ) / (max_berths : ℚ)) * 100)
          is_congested := decide (max_berths < (p.2.length : ℤ))
          vessel_types := _count_types p.2 : TimeWindow }) := by
    unfold analyze_port_capacity
    dsimp only
    split <;> rfl
  have hpc : (analyze_port_capacity now vessels max_berths).potential_congestion
      = (analyze_port_capacity now vessels max_berths).time_windows.any
          (fun w => w.is_congested) := by
    unfold analyze_port_capacity
    dsimp only
    split
    · rename_i hemp
      have hnil : sortByKey (cluster_by_arrival_time now vessels 12) = [] := by
        rcases List.isEmpty_iff.mp hemp |> List.map_eq_nil_iff.mp with h
        exact h
      rw [hnil]
      simp
    · rfl
  constructor
  · rw [hw]
    intro w hw2
    obtain ⟨p, hp, rfl⟩ := List.mem_map.mp hw2
    rfl
  · rw [hpc, List.any_eq_true]

theorem analyze_port_capacity_congestion_witness :
    ((0 : ℤ) < 10) ∧
    ((∀ w ∈ (analyze_port_capacity 0 (List.replicate 15
          { eta := some "1970-01-01T06:00:00", ship_type := some "Cargo",
            length := some 200 }) 10).time_windows,
        w.is_congested = decide ((10 : ℤ) < (w.arriving_vessels : ℤ))) ∧
      ((analyze_port_capacity 0 (List.replicate 15
          { eta := some "1970-01-01T06:00:00", ship_type := some "Cargo",
            length := some 200 }) 10).potential_congestion = true ↔
        ∃ w ∈ (analyze_port_capacity 0 (List.replicate 15
          { eta := some "1970-01-01T06:00:00", ship_type := some "Cargo",
            length := some 200 }) 10).time_windows, w.is_congested = true)) ∧
    (analyze_port_capacity 0 (List.replicate 15
        { eta := some "1970-01-01T06:00:00", ship_type := some "Cargo",
          length := some 200 }) 10).potential_congestion = true :=
  ⟨by decide,
   analyze_port_capacity_congestion 0 _ 10 (by decide),
   by with_unfolding_all rfl⟩

theorem isDigit_not_isWhitespace {c : Char} (h : c.isDigit = true) :
    c.isWhitespace = false := by
  simp only [Char.isDigit, Bool.and_eq_true, decide_eq_true_eq] at h
  obtain ⟨h1, h2⟩ := h
  have hne : c ≠ ' ' ∧ c ≠ '\t' ∧ c ≠ '\x0d' ∧ c ≠ '\n' := by
    refine ⟨?_, ?_, ?_, ?_⟩ <;> (rintro rfl; revert h1 h2; decide)
  simp [Char.isWhitespace, hne.1, hne.2.1, hne.2.2.1, hne.2.2.2]

theorem dropWhile_eq_self_of_none {p : Char → Bool} :
    ∀ {l : List Char}, (∀ c ∈ l, p c = false) → l.dropWhile p = l
  | [], _ => rfl
  | c :: rest, h => by
      have hc := h c (List.mem_cons_self _ _)
      simp [List.dropWhile_cons, hc]

theorem pyStrip_eq_self_of_digits {l : List Char} (h : l.all Char.isDigit = true) :
    pyStrip l = l := by
  have h1 : ∀ c ∈ l, Char.isWhitespace c = false := fun c hc =>
    isDigit_not_isWhitespace (List.all_eq_true.mp h c hc)
  unfold pyStrip
  rw [dropWhile_eq_self_of_none h1,
    dropWhile_eq_self_of_none (fun c hc => h1 c (List.mem_reverse.mp hc)),
    List.reverse_reverse]

theorem runFmt_digits_none :
    ∀ (ts : List FmtTok) (cs : List Char) (acc : List (ℕ × ℕ)),
      (∃ c, FmtTok.lit c ∈ ts ∧ c.isDigit = false) →
      cs.all Char.isDigit = true →
      runFmt ts cs acc = none
  | [], _, _, ⟨_, hc, _⟩, _ => absurd hc (List.not_mem_nil _)
  | .lit c0 :: ts, cs, acc, ⟨c, hc, hcd⟩, hall => by
      cases cs with
      | nil => rfl
      | cons x xs =>
          by_cases hx : x = c0
          · subst hx
            have hxd : x.isDigit = true :=
              List.all_eq_true.mp hall x (List.mem_cons_self _ _)
            have hcts : FmtTok.lit c ∈ ts := by
              rcases List.mem_cons.mp hc with he | hts
              · injection he with he2
                subst he2
                exact absurd hxd (by rw [hcd]; decide)
              · exact hts
            have hrest : xs.all Char.isDigit = true :=
              List.all_eq_true.mpr fun d hd =>
                List.all_eq_true.mp hall d (List.mem_cons_of_mem _ hd)
            simp [runFmt, runFmt_digits_none ts xs acc ⟨c, hcts, hcd⟩ hrest]
          · simp [runFmt, hx]
  | .fld f w :: ts, cs, acc, ⟨c, hc, hcd⟩, hall => by
      have hcts : FmtTok.lit c ∈ ts := by
        rcases List.mem_cons.mp hc with he | hts
        · cases he
        · exact hts
      have hdrop : ∀ n : ℕ, (cs.drop n).all Char.isDigit = true := fun n =>
        List.all_eq_true.mpr fun d hd =>
          List.all_eq_true.mp hall d (List.mem_of_mem_drop hd)
      unfold runFmt
      by_cases hds : ((cs.takeWhile Char.isDigit).take w).isEmpty
      · simp [hds]
      · simp only [hds, Bool.false_eq_true, if_false]
        exact runFmt_digits_none ts _ _ ⟨c, hcts, hcd⟩ (hdrop _)

theorem hasNonDigitLit_sound {ts : List FmtTok} (h : hasNonDigitLit ts = true) :
    ∃ c, FmtTok.lit c ∈ ts ∧ c.isDigit = false := by
  unfold hasNonDigitLit at h
  obtain ⟨tok, htok, hp⟩ := List.any_eq_true.mp h
  cases tok with
  | lit c =>
      refine ⟨c, htok, ?_⟩
      simpa using hp
  | fld f w => simp at hp

theorem tryFormats_none_of_digits :
    ∀ (fs : List (List FmtTok)) (cs : List Char),
      (∀ f ∈ fs, hasNonDigitLit f = true) → cs.all Char.isDigit = true →
      tryFormats fs cs = none
  | [], _, _, _ => rfl
  | f :: fs, cs, hf, hall => by
      have h1 := runFmt_digits_none f cs []
        (hasNonDigitLit_sound (hf f (List.mem_cons_self _ _))) hall
      have h2 := tryFormats_none_of_digits fs cs
        (fun g hg => hf g (List.mem_cons_of_mem _ hg)) hall
      simp [tryFormats, h1, h2]

theorem floor_div_floor (r : ℚ) (n : ℕ) (hn : 0 < n) :
    ⌊r / (n : ℚ)⌋ = ⌊r⌋ / (n : ℤ) := by
  have hn2 : (0 : ℚ) < (n : ℚ) := by exact_mod_cast hn
  have h1 : (⌊r⌋ : ℚ) ≤ r := Int.floor_le r
  have h2 : r < ⌊r⌋ + 1 := Int.lt_floor_add_one r
  have hd := Int.ediv_add_emod ⌊r⌋ (n : ℤ)
  have hm1 : 0 ≤ ⌊r⌋ % (n : ℤ) := Int.emod_nonneg _ (by positivity)
  have hm2 : ⌊r⌋ % (n : ℤ) < (n : ℤ) := Int.emod_lt_of_pos _ (by exact_mod_cast hn)
  have hdq : ((n : ℤ) : ℚ) * ((⌊r⌋ / (n : ℤ) : ℤ) : ℚ) + ((⌊r⌋ % (n : ℤ) : ℤ) : ℚ)
      = (⌊r⌋ : ℚ) := by exact_mod_cast hd
  have hm1q : (0 : ℚ) ≤ ((⌊r⌋ % (n : ℤ) : ℤ) : ℚ) := by exact_mod_cast hm1
  have hm2q : ((⌊r⌋ % (n : ℤ) : ℤ) : ℚ) < (n : ℚ) := by exact_mod_cast hm2
  rw [Int.floor_eq_iff]
  constructor
  · rw [le_div_iff₀ hn2]
    push_cast at hdq ⊢
    linarith
  · rw [div_lt_iff₀ hn2]
    have hm3 : ((⌊r⌋ % (n : ℤ) : ℤ) : ℚ) + 1 ≤ (n : ℚ) := by
      exact_mod_cast Int.add_one_le_iff.mpr hm2
    push_cast at hdq hm3 ⊢
    linarith

theorem midnight_add_hour (t : ℚ) :
    midnightOf t + 3600 * (hourOfDay t : ℚ) = 3600 * (⌊t / 3600⌋ : ℚ) := by
  unfold midnightOf hourOfDay
  have h1 : ⌊t / 86400⌋ = ⌊t / 3600⌋ / 24 := by
    have he : t / 86400 = (t / 3600) / (24 : ℕ) := by push_cast; ring
    rw [he, floor_div_floor (t / 3600) 24 (by norm_num)]
    norm_num
  rw [h1]
  have h2 := Int.ediv_add_emod ⌊t / 3600⌋ 24
  have h2q : (24 : ℚ) * ((⌊t / 3600⌋ / 24 : ℤ) : ℚ) + ((⌊t / 3600⌋ % 24 : ℤ) : ℚ)
      = (⌊t / 3600⌋ : ℚ) := by exact_mod_cast h2
  linarith

theorem hourOfDay_replace (now : ℚ) (m : ℕ) (hm : m ≤ 59) :
    hourOfDay (3600 * (⌊now / 3600⌋ : ℚ) + 60 * (m : ℚ)) = hourOfDay now := by
  unfold hourOfDay
  congr 1
  have h1 : (3600 * (⌊now / 3600⌋ : ℚ) + 60 * (m : ℚ)) / 3600
      = (m : ℚ) / 60 + (⌊now / 3600⌋ : ℚ) := by ring
  rw [h1, Int.floor_add_int]
  have h0 : ⌊(m : ℚ) / 60⌋ = 0 := by
    rw [Int.floor_eq_zero_iff]
    constructor
    · positivity
    · rw [div_lt_iff₀ (by norm_num : (0 : ℚ) < 60)]
      have : (m : ℚ) ≤ 59 := by exact_mod_cast hm
      linarith
  omega

/-- C5: a raw ETA given as a bare 3/4-digit `HHMM`/`HMM` string — all
digits, with a valid hour (≤ 23) and minute (≤ 59) part — is interpreted
relative to "today": when the encoded hour has not yet passed at parse
time, `_normalize_eta` returns today at exactly that hour and minute; when
it has already passed, the result is rolled forward to the current hour at
the encoded minute; in both cases the returned timestamp never denotes an
already-passed hour of the current day (it is never earlier than the start
of the hour containing `now`). -/
theorem normalize_eta_hhmm (now : ℚ) (s : String)
    (hd : s.data.all Char.isDigit = true)
    (hlen : s.data.length = 3 ∨ s.data.length = 4)
    (hhour : digitsVal (s.data.take (s.data.length - 2)) ≤ 23)
    (hmin : digitsVal (s.data.drop (s.data.length - 2)) ≤ 59) :
    (hourOfDay now ≤ (digitsVal (s.data.take (s.data.length - 2)) : ℤ) →
      _normalize_eta now (.vStr s) = .ok (some (midnightOf now
        + 3600 * (digitsVal (s.data.take (s.data.length - 2)) : ℚ)
        + 60 * (digitsVal (s.data.drop (s.data.length - 2)) : ℚ)))) ∧
    ((digitsVal (s.data.take (s.data.length - 2)) : ℤ) < hourOfDay now →
      _normalize_eta now (.vStr s) = .ok (some (midnightOf now
        + 3600 * (hourOfDay now : ℚ)
        + 60 * (digitsVal (s.data.drop (s.data.length - 2)) : ℚ)))) ∧
    (∀ t, _normalize_eta now (.vStr s) = .ok (some t) →
      midnightOf now + 3600 * (hourOfDay now : ℚ) ≤ t) := by
  have hne : s.data ≠ [] := by
    rcases hlen with h | h <;> (intro hc; rw [hc] at h; simp at h)
  have hsent : ¬(RawValue.vStr s = RawValue.vNone ∨ RawValue.vStr s = RawValue.vStr "" ∨
      RawValue.vStr s = RawValue.vStr "0000-00-00 00:00" ∨
      RawValue.vStr s = RawValue.vStr "0000-00-00T00:00:00") := by
    rintro (h | h | h | h)
    · cases h
    · simp only [RawValue.vStr.injEq] at h
      subst h
      exact hne rfl
    · simp only [RawValue.vStr.injEq] at h
      subst h
      exact absurd hd (by decide)
    · simp only [RawValue.vStr.injEq] at h
      subst h
      exact absurd hd (by decide)
  have hstrip := pyStrip_eq_self_of_digits hd
  have hfmt : tryFormats knownFormats s.data = none :=
    tryFormats_none_of_digits knownFormats s.data (by decide) hd
  have hempty : s.data.isEmpty = false := by
    cases hsd : s.data with
    | nil => exact absurd hsd hne
    | cons a l => rfl
  have hlen2 : (decide (s.data.length = 3) || decide (s.data.length = 4)) = true := by
    rcases hlen with h | h <;> simp [h]
  have hm2 : ¬(59 < digitsVal (s.data.drop (s.data.length - 2))) := by omega
  have hrep := hourOfDay_replace now (digitsVal (s.data.drop (s.data.length - 2))) hmin
  have hmain : _normalize_eta now (.vStr s) = .ok (some
      ((3600 * (⌊now / 3600⌋ : ℚ)
          + 60 * (digitsVal (s.data.drop (s.data.length - 2)) : ℚ))
        + 3600 * ((max ((digitsVal (s.data.take (s.data.length - 2)) : ℤ)
            - hourOfDay now) 0 : ℤ) : ℚ))) := by
    unfold _normalize_eta
    rw [if_neg hsent]
    simp only [hstrip, hempty, hfmt, hd, hlen2, Bool.false_eq_true, if_false,
      Bool.and_self, Bool.true_and, if_true, if_neg hm2, hrep]
  have hmh := midnight_add_hour now
  have hmnn : (0 : ℚ) ≤ (digitsVal (s.data.drop (s.data.length - 2)) : ℚ) := by positivity
  refine ⟨?_, ?_, ?_⟩
  · intro hcase
    rw [hmain]
    simp only [Except.ok.injEq, Option.some.injEq]
    rw [max_eq_left (by omega :
      (0 : ℤ) ≤ (digitsVal (s.data.take (s.data.length - 2)) : ℤ) - hourOfDay now)]
    push_cast
    linarith
  · intro hcase
    rw [hmain]
    simp only [Except.ok.injEq, Option.some.injEq]
    rw [max_eq_right (by omega :
      (digitsVal (s.data.take (s.data.length - 2)) : ℤ) - hourOfDay now ≤ (0 : ℤ))]
    push_cast
    linarith
  · intro t ht
    rw [hmain] at ht
    simp only [Except.ok.injEq, Option.some.injEq] at ht
    have hmax : (0 : ℚ) ≤ ((max ((digitsVal (s.data.take (s.data.length - 2)) : ℤ)
        - hourOfDay now) 0 : ℤ) : ℚ) :=
      Int.cast_nonneg.mpr (le_max_right _ _)
    linarith [ht.symm.le, ht.le]

theorem normalize_eta_hhmm_witness :
    ("1500".data.all Char.isDigit = true) ∧
    ("1500".data.length = 3 ∨ "1500".data.length = 4) ∧
    (digitsVal ("1500".data.take ("1500".data.length - 2)) ≤ 23) ∧
    (digitsVal ("1500".data.drop ("1500".data.length - 2)) ≤ 59) ∧
    _normalize_eta 45296 (.vStr "1500") = .ok (some 54000) := by
  have e1 : hourOfDay 45296 = 12 := by with_unfolding_all rfl
  have e2 : midnightOf 45296 = 0 := by with_unfolding_all rfl
  have e3 : digitsVal ("1500".data.take ("1500".data.length - 2)) = 15 := by decide
  have e4 : digitsVal ("1500".data.drop ("1500".data.length - 2)) = 0 := by decide
  refine ⟨by decide, Or.inr (by decide), by decide, by decide, ?_⟩
  have h := (normalize_eta_hhmm 45296 "1500" (by decide) (Or.inr (by decide))
    (by decide) (by decide)).1 (by rw [e1, e3]; decide)
  rw [h, e2, e3, e4]
  norm_num

end MarineTraffic
